import Mathlib

/-!
Shallow embedding of the CookBookTasks scripts:
`AttachVolumetoInstance.py` (class `EBSVolumeAttacher`),
`DeletesnapshotRetention.py` (classes `EBSSnapshotCleaner` and `EBSVolumeExpander`),
and `ReplaceInstanceInASG.py` (class `ASGManager`).

Conventions of the embedding:
* Cloud API answers are supplied as explicit environments: an inspection
  sequence `Nat → Option Volume` gives the result of the k-th
  `describe_volumes` call (`none` models a caught `ClientError`), and an
  `AsgListing` sequence gives the successive answers of
  `describe_auto_scaling_groups`.
* `sys.exit(c)` is modelled by the `ProcResult.procExit c` constructor; a
  normal return of value `a` is `ProcResult.ret a`.
* Time is modelled abstractly: inspections are instantaneous and
  `time.sleep(p)` advances the clock by `p`.  A poll loop therefore runs its
  k-th attempt at clock `k * p`, and the `elapsed` field of a `PollOutcome`
  is the total time the loop blocked.
* The `while time.time() - start < timeout` loops are translated with a fuel
  parameter; fuel `timeout + 1` is an upper bound on the number of
  iterations whenever the sleep interval is positive (the clock grows by at
  least 1 per iteration and the guard requires clock < timeout), so the
  fuel never runs out in any situation a theorem below talks about.
-/

/-- One entry of a volume's `Attachments` list as returned by
`describe_volumes`. -/
structure Attachment where
  instanceId : String
  device : String
  state : String
deriving DecidableEq

/-- The fields of a `describe_volumes` answer that the scripts read:
`State`, `AvailabilityZone`, `Size` and `Attachments`. -/
structure Volume where
  volumeId : String
  state : String
  availabilityZone : String
  size : Nat
  attachments : List Attachment
deriving DecidableEq

/-- The fields of a `describe_instances` answer that
`EBSVolumeAttacher` reads: `State.Name` and `Placement.AvailabilityZone`. -/
structure Instance where
  instanceId : String
  stateName : String
  availabilityZone : String
deriving DecidableEq

/-- Result of a caller-facing call: either a value returned to the caller,
or a process termination through `sys.exit code`. -/
inductive ProcResult (α : Type) where
  | ret (a : α)
  | procExit (code : Nat)
deriving DecidableEq

/-- Instrumented result of one of the scripts' polling loops: whether the
loop returned `True` (converged) or fell through to the timeout return,
together with the number of inspection attempts performed and the total
time (in seconds of model time) the loop blocked. -/
inductive PollOutcome where
  | converged (attempts : Nat) (elapsed : Nat)
  | timedOut (attempts : Nat) (elapsed : Nat)
deriving DecidableEq

/-- Total blocking time of a finished poll loop. -/
def PollOutcome.elapsed : PollOutcome → Nat
  | .converged _ t => t
  | .timedOut _ t => t

/-- Number of inspection attempts a finished poll loop performed. -/
def PollOutcome.attemptCount : PollOutcome → Nat
  | .converged k _ => k
  | .timedOut k _ => k

/-- The Boolean value the Python loop actually returns: `True` exactly on
the converged outcome. -/
def pollSucceeded : PollOutcome → Bool
  | .converged _ _ => true
  | .timedOut _ _ => false

/-- Core of the scripts' polling loops with pure attempts
(`verify_attachment` and `verify_expansion`): at clock `t`, after `k`
attempts, with `fuel` iterations allowed, run
`while clock - start < T: if pred k: return True; sleep p` where `pred k`
is the predicate evaluated on the k-th inspection. -/
def pollP (pred : Nat → Bool) (p T : Nat) : Nat → Nat → Nat → PollOutcome
  | 0, k, t => .timedOut k t
  | fuel + 1, k, t =>
    if t < T then
      if pred k then .converged (k + 1) t
      else pollP pred p T fuel (k + 1) (t + p)
    else .timedOut k t

/-- The loop of the source, started at clock 0 and attempt 0; fuel
`T + 1` never runs out when `0 < p` (see the module comment). -/
def waitUntilP (pred : Nat → Bool) (p T : Nat) : PollOutcome :=
  pollP pred p T (T + 1) 0 0

/-- Core of `ASGManager.wait_for_healthy_instance`, whose inspection can
itself terminate the process (its `get_asg_instances` calls `sys.exit(1)`
on a `ClientError`): attempts yield `ProcResult Bool`. -/
def pollE (attempt : Nat → ProcResult Bool) (p T : Nat) :
    Nat → Nat → Nat → ProcResult PollOutcome
  | 0, k, t => .ret (.timedOut k t)
  | fuel + 1, k, t =>
    if t < T then
      match attempt k with
      | .procExit c => .procExit c
      | .ret true => .ret (.converged (k + 1) t)
      | .ret false => pollE attempt p T fuel (k + 1) (t + p)
    else .ret (.timedOut k t)

/-- The effectful loop started at clock 0 and attempt 0. -/
def waitUntilE (attempt : Nat → ProcResult Bool) (p T : Nat) : ProcResult PollOutcome :=
  pollE attempt p T (T + 1) 0 0

/-- Ceiling division, used to state how many attempts a timed-out loop
performs. -/
def ceilDiv (a b : Nat) : Nat := (a + b - 1) / b

/- ### Lemmas about the generic loops -/

theorem ceilDiv_zero_left {p : Nat} (hp : 0 < p) : ceilDiv 0 p = 0 := by
  unfold ceilDiv
  exact Nat.div_eq_of_lt (by omega)

theorem ceilDiv_step {m p : Nat} (hp : 0 < p) (hm : 0 < m) :
    ceilDiv m p = ceilDiv (m - p) p + 1 := by
  unfold ceilDiv
  rcases le_or_lt m p with h | h
  · have h1 : m - p = 0 := by omega
    rw [h1]
    have e1 : m + p - 1 = (m - 1) + p := by omega
    rw [e1, Nat.add_div_right _ hp]
    have e2 : (m - 1) / p = 0 := Nat.div_eq_of_lt (by omega)
    have e3 : (0 + p - 1) / p = 0 := Nat.div_eq_of_lt (by omega)
    omega
  · have e1 : m + p - 1 = ((m - p) + p - 1) + p := by omega
    rw [e1, Nat.add_div_right _ hp]

theorem le_mul_ceilDiv {m p : Nat} (hp : 0 < p) : m ≤ ceilDiv m p * p := by
  unfold ceilDiv
  rw [Nat.mul_comm]
  have h1 := Nat.div_add_mod (m + p - 1) p
  have h2 : (m + p - 1) % p < p := Nat.mod_lt _ hp
  omega

theorem pollP_elapsed_lt (pred : Nat → Bool) (p T : Nat) :
    ∀ fuel k t, t < T + p → (pollP pred p T fuel k t).elapsed < T + p := by
  intro fuel
  induction fuel with
  | zero => intro k t ht; simpa [pollP, PollOutcome.elapsed] using ht
  | succ n ih =>
    intro k t ht
    by_cases hlt : t < T
    · rw [pollP, if_pos hlt]
      cases hpk : pred k with
      | true => simpa [PollOutcome.elapsed] using (by omega : t < T + p)
      | false =>
        simp only [Bool.false_eq_true, if_false]
        exact ih (k + 1) (t + p) (by omega)
    · rw [pollP, if_neg hlt]
      simpa [PollOutcome.elapsed] using ht

theorem pollE_elapsed_lt (attempt : Nat → ProcResult Bool) (p T : Nat) :
    ∀ fuel k t, t < T + p → ∀ r, pollE attempt p T fuel k t = .ret r →
      r.elapsed < T + p := by
  intro fuel
  induction fuel with
  | zero =>
    intro k t ht r hr
    rw [pollE] at hr
    cases hr
    simpa [PollOutcome.elapsed] using ht
  | succ n ih =>
    intro k t ht r hr
    by_cases hlt : t < T
    · rw [pollE, if_pos hlt] at hr
      cases hak : attempt k with
      | procExit c => rw [hak] at hr; cases hr
      | ret b =>
        cases b with
        | true =>
          rw [hak] at hr
          cases hr
          simpa [PollOutcome.elapsed] using (by omega : t < T + p)
        | false =>
          rw [hak] at hr
          exact ih (k + 1) (t + p) (by omega) r hr
    · rw [pollE, if_neg hlt] at hr
      cases hr
      simpa [PollOutcome.elapsed] using ht

theorem pollP_never_true (pred : Nat → Bool) (p T : Nat)
    (hpred : ∀ k, pred k = false) (hp : 0 < p) :
    ∀ fuel k t, T ≤ t + fuel * p →
      pollP pred p T fuel k t =
        .timedOut (k + ceilDiv (T - t) p) (t + ceilDiv (T - t) p * p) := by
  intro fuel
  induction fuel with
  | zero =>
    intro k t h
    have h0 : T - t = 0 := by omega
    rw [pollP, h0, ceilDiv_zero_left hp]
    simp
  | succ n ih =>
    intro k t h
    have hmul : (n + 1) * p = n * p + p := by ring
    by_cases hlt : t < T
    · have hm : 0 < T - t := by omega
      rw [pollP, if_pos hlt, hpred k]
      simp only [Bool.false_eq_true, if_false]
      rw [ih (k + 1) (t + p) (by omega)]
      have hstep : ceilDiv (T - t) p = ceilDiv (T - t - p) p + 1 := ceilDiv_step hp hm
      have he : T - (t + p) = T - t - p := by omega
      rw [he, hstep]
      simp only [PollOutcome.timedOut.injEq, Nat.succ_mul]
      omega
    · have h0 : T - t = 0 := by omega
      rw [pollP, if_neg hlt, h0, ceilDiv_zero_left hp]
      simp

theorem waitUntilP_never_true (pred : Nat → Bool) (p T : Nat)
    (hpred : ∀ k, pred k = false) (hp : 0 < p) :
    waitUntilP pred p T = .timedOut (ceilDiv T p) (ceilDiv T p * p) := by
  unfold waitUntilP
  have hfuel : T ≤ 0 + (T + 1) * p := by
    have h1 : (T + 1) * 1 ≤ (T + 1) * p := Nat.mul_le_mul_left (T + 1) hp
    omega
  rw [pollP_never_true pred p T hpred hp (T + 1) 0 0 hfuel]
  simp

theorem pollP_first_true (pred : Nat → Bool) (p T : Nat) :
    ∀ n fuel k t, n < fuel → (∀ j, j < n → pred (k + j) = false) →
      pred (k + n) = true → t + n * p < T →
      pollP pred p T fuel k t = .converged (k + n + 1) (t + n * p) := by
  intro n
  induction n with
  | zero =>
    intro fuel k t hfuel _ htrue ht
    match fuel, hfuel with
    | f + 1, _ =>
      rw [pollP, if_pos (by omega), Nat.add_zero] at *
      rw [htrue]
      simp
  | succ m ih =>
    intro fuel k t hfuel hfalse htrue ht
    match fuel, hfuel with
    | f + 1, hfuel =>
      have hk0 : pred k = false := by
        have := hfalse 0 (by omega)
        simpa using this
      rw [pollP, if_pos (by omega), hk0]
      simp only [Bool.false_eq_true, if_false]
      have hres := ih f (k + 1) (t + p) (by omega)
        (by
          intro j hj
          have := hfalse (j + 1) (by omega)
          have he : k + (j + 1) = k + 1 + j := by omega
          rw [he] at this
          exact this)
        (by
          have he : k + (m + 1) = k + 1 + m := by omega
          rw [he] at htrue
          exact htrue)
        (by
          have : t + (m + 1) * p = t + p + m * p := by ring
          omega)
      rw [hres]
      simp only [PollOutcome.converged.injEq, Nat.succ_mul]
      omega

theorem waitUntilP_first_true (pred : Nat → Bool) (p T n : Nat) (hp : 0 < p)
    (hfalse : ∀ j, j < n → pred j = false) (htrue : pred n = true)
    (hn : n * p < T) :
    waitUntilP pred p T = .converged (n + 1) (n * p) := by
  unfold waitUntilP
  have hnT : n < T + 1 := by
    have h1 : n * 1 ≤ n * p := Nat.mul_le_mul_left n hp
    omega
  have := pollP_first_true pred p T n (T + 1) 0 0 hnT
    (by intro j hj; simpa using hfalse j hj) (by simpa using htrue) (by omega)
  simpa using this

theorem waitUntilE_first_true (attempt : Nat → ProcResult Bool) (p T : Nat)
    (hT : 0 < T) (h0 : attempt 0 = .ret true) :
    waitUntilE attempt p T = .ret (.converged 1 0) := by
  unfold waitUntilE
  rw [pollE, if_pos (by omega), h0]

/- ### EBSVolumeAttacher (src/AttachVolumetoInstance.py) -/

/-- The three prerequisite checks of `EBSVolumeAttacher.verify_prereqs`:
volume `State == "available"`, instance `State.Name == "running"`, and
equal availability zones. -/
def verify_prereqs (v : Volume) (i : Instance) : Bool :=
  if v.state != "available" then false
  else if i.stateName != "running" then false
  else if v.availabilityZone != i.availabilityZone then false
  else true

/-- The convergence predicate evaluated on each inspection inside
`EBSVolumeAttacher.verify_attachment`: the fetched volume exists (a
`ClientError` in `get_volume` yields `None`, modelled `none`), its state is
`"in-use"`, and some attachment entry matches the instance, device and
state `"attached"`. -/
def attachTarget (iid dev : String) : Option Volume → Bool
  | none => false
  | some v =>
    v.state == "in-use" &&
      v.attachments.any fun a =>
        a.instanceId == iid && a.device == dev && a.state == "attached"

/-- `EBSVolumeAttacher.verify_attachment`: poll `get_volume` every 5
seconds until the attachment target holds or `timeout` elapses.
`getVol k` is the answer of the k-th `describe_volumes` call inside the
loop. -/
def verify_attachment (getVol : Nat → Option Volume) (iid dev : String)
    (timeout : Nat) : PollOutcome :=
  waitUntilP (fun k => attachTarget iid dev (getVol k)) 5 timeout

/-- `EBSVolumeAttacher.run`: fetch volume and instance, check
prerequisites, attach, verify.  `volumeAt 0` is the initial `get_volume`
answer, `volumeAt (k+1)` the k-th answer inside `verify_attachment`;
`instanceRes` is the `get_instance` answer and `attachOk` whether
`attach_volume` succeeds.  The first component is the Boolean the method
returns, the second counts how many times the mutating `attach_volume`
call was issued. -/
def attacherRun (volumeAt : Nat → Option Volume) (instanceRes : Option Instance)
    (attachOk : Bool) (iid dev : String) : Bool × Nat :=
  match volumeAt 0, instanceRes with
  | some v, some i =>
    if verify_prereqs v i then
      if attachOk then
        (pollSucceeded (verify_attachment (fun k => volumeAt (k + 1)) iid dev 120), 1)
      else (false, 1)
    else (false, 0)
  | _, _ => (false, 0)

/- ### EBSVolumeExpander (second script in src/DeletesnapshotRetention.py) -/

/-- The convergence predicate of `EBSVolumeExpander.verify_expansion`: the
fetched volume exists and its `Size` is at least the requested size. -/
def expandTarget (newSize : Nat) : Option Volume → Bool
  | none => false
  | some v => newSize ≤ v.size

/-- `EBSVolumeExpander.verify_expansion`: poll `get_volume` every 10
seconds until the size target holds or `timeout` elapses. -/
def verify_expansion (getVol : Nat → Option Volume) (newSize : Nat)
    (timeout : Nat) : PollOutcome :=
  waitUntilP (fun k => expandTarget newSize (getVol k)) 10 timeout

/-- `EBSVolumeExpander.run`: fetch the volume, require
`new_size > current_size`, call `modify_volume`, verify.  The second
component counts the mutating `modify_volume` calls issued. -/
def expanderRun (volumeAt : Nat → Option Volume) (modifyOk : Bool)
    (newSize : Nat) : Bool × Nat :=
  match volumeAt 0 with
  | none => (false, 0)
  | some v =>
    if newSize ≤ v.size then (false, 0)
    else if modifyOk then
      (pollSucceeded (verify_expansion (fun k => volumeAt (k + 1)) newSize 300), 1)
    else (false, 1)

/- ### EBSSnapshotCleaner (first script in src/DeletesnapshotRetention.py) -/

/-- One element of the `describe_snapshots` answer: `SnapshotId` and
`StartTime`.  `startTime` is measured in days on an absolute axis, matching
the script's naive-datetime comparison. -/
structure Snap where
  snapshotId : String
  startTime : Int
deriving DecidableEq

/-- The deletion loop of `EBSSnapshotCleaner.delete_old_snapshots`
(lines 72-82): for each listed snapshot in order, if
`start_time < cutoff_date` attempt `delete_snapshot`; a `ClientError` from
the delete (modelled by `deleteOk id = false`) is caught and logged and the
loop continues; the id is appended to `deleted_snapshots` only on
success. -/
def deletions (cutoff : Int) (deleteOk : String → Bool) : List Snap → List String
  | [] => []
  | s :: rest =>
    if s.startTime < cutoff then
      if deleteOk s.snapshotId then s.snapshotId :: deletions cutoff deleteOk rest
      else deletions cutoff deleteOk rest
    else deletions cutoff deleteOk rest

/-- `EBSSnapshotCleaner.delete_old_snapshots`: compute
`cutoff = now - retention_days`, list snapshots (`none` models a
`ClientError` from `describe_snapshots`, which is caught and answered with
`sys.exit(1)`), run the deletion loop, then `sys.exit(0)` on every
successful path.  The first component is what happens to the process, the
second the logged list of deleted snapshot ids. -/
def delete_old_snapshots (now retentionDays : Int)
    (listing : Option (List Snap)) (deleteOk : String → Bool) :
    ProcResult Unit × List String :=
  match listing with
  | none => (.procExit 1, [])
  | some snaps => (.procExit 0, deletions (now - retentionDays) deleteOk snaps)

/- ### ASGManager (src/ReplaceInstanceInASG.py) -/

/-- One element of an auto scaling group's `Instances` list. -/
structure AsgInst where
  instanceId : String
  lifecycleState : String
  healthStatus : String
deriving DecidableEq

/-- One answer of `describe_auto_scaling_groups`: a `ClientError`, an empty
`AutoScalingGroups` list (ASG not found), or the found group's
instances. -/
inductive AsgListing where
  | clientErr
  | notFound
  | found (instances : List AsgInst)
deriving DecidableEq

/-- `ASGManager.get_asg_instances`: on a `ClientError` the script calls
`sys.exit(1)`; when the ASG is not found it returns `[]`; otherwise the
group's instance list. -/
def get_asg_instances : AsgListing → ProcResult (List AsgInst)
  | .clientErr => .procExit 1
  | .notFound => .ret []
  | .found l => .ret l

/-- ASCII lower-casing of a string, character by character: the behavior
of Python's `str.lower()` on the provider's ASCII status strings. -/
def strLower (s : String) : String := ⟨s.data.map Char.toLower⟩

/-- The health test used in both loops of the script:
`inst['HealthStatus'].lower() == 'healthy'`. -/
def instHealthy (i : AsgInst) : Bool := strLower i.healthStatus == "healthy"

/-- One attempt of the `wait_for_healthy_instance` loop: call
`get_asg_instances` (which may terminate the process) and evaluate
`all(inst['HealthStatus'].lower() == 'healthy' for inst in instances)`. -/
def fleetAttempt (listings : Nat → AsgListing) (k : Nat) : ProcResult Bool :=
  match get_asg_instances (listings k) with
  | .procExit c => .procExit c
  | .ret insts => .ret (insts.all instHealthy)

/-- `ASGManager.wait_for_healthy_instance`: poll the fleet every
`interval` seconds until all members are healthy or `timeout` elapses;
`listings k` is the answer of the k-th `describe_auto_scaling_groups`
call inside the loop. -/
def wait_for_healthy_instance (listings : Nat → AsgListing)
    (timeout interval : Nat) : ProcResult PollOutcome :=
  waitUntilE (fleetAttempt listings) interval timeout

/-- The member loop of `ASGManager.replace_unhealthy_instances`: for each
instance in order, skip it when healthy; otherwise terminate it
(`terminateOk id = false` models a `ClientError` from
`terminate_instance_in_auto_scaling_group`, answered with `sys.exit(1)`)
and wait for the fleet with the defaults `timeout=600, interval=15`; a
timed-out wait is answered with `sys.exit(1)`.  `idx` is the index of the
next unconsumed `describe_auto_scaling_groups` answer. -/
def replaceLoop (listings : Nat → AsgListing) (terminateOk : String → Bool) :
    List AsgInst → Nat → ProcResult Unit
  | [], _ => .ret ()
  | i :: rest, idx =>
    if instHealthy i then replaceLoop listings terminateOk rest idx
    else if terminateOk i.instanceId then
      match wait_for_healthy_instance (fun j => listings (idx + j)) 600 15 with
      | .procExit c => .procExit c
      | .ret r =>
        if pollSucceeded r then
          replaceLoop listings terminateOk rest (idx + r.attemptCount)
        else .procExit 1
    else .procExit 1

/-- `ASGManager.replace_unhealthy_instances`: list the ASG members
(`listings 0`), return immediately when the list is empty, otherwise run
the member loop; subsequent listing answers are consumed by the nested
waits. -/
def replace_unhealthy_instances (listings : Nat → AsgListing)
    (terminateOk : String → Bool) : ProcResult Unit :=
  match get_asg_instances (listings 0) with
  | .procExit c => .procExit c
  | .ret [] => .ret ()
  | .ret insts => replaceLoop listings terminateOk insts 1

/- ### Claims -/

/-- Claim C1: for a reconcile invocation with a non-empty precondition set,
if any precondition fails (volume not `"available"`, instance not
`"running"`, or AZ mismatch in `EBSVolumeAttacher.run`; requested size at
most the current size in `EBSVolumeExpander.run`), the run returns the
failure result `false` and the mutating provider call (`attach_volume`,
resp. `modify_volume`) is never issued: the call count is 0. -/
theorem claim1_precondition_failure_blocks_mutation :
    (∀ (volumeAt : Nat → Option Volume) (instanceRes : Option Instance)
        (attachOk : Bool) (iid dev : String) (v : Volume) (i : Instance),
        volumeAt 0 = some v → instanceRes = some i → verify_prereqs v i = false →
        attacherRun volumeAt instanceRes attachOk iid dev = (false, 0)) ∧
    (∀ (volumeAt : Nat → Option Volume) (modifyOk : Bool) (newSize : Nat) (v : Volume),
        volumeAt 0 = some v → newSize ≤ v.size →
        expanderRun volumeAt modifyOk newSize = (false, 0)) := by
  constructor
  · intro volumeAt instanceRes attachOk iid dev v i hv hi hpre
    simp [attacherRun, hv, hi, hpre]
  · intro volumeAt modifyOk newSize v hv hsz
    simp [expanderRun, hv, hsz]

/-- Witness for C1: a volume in state `"in-use"` fails the attach
preconditions, and a requested size equal to the current size fails the
expand precondition; both runs return `false` with zero mutating calls. -/
theorem claim1_witness :
    attacherRun (fun _ => some ⟨"vol-1", "in-use", "ap-south-1a", 8, []⟩)
        (some ⟨"i-1", "running", "ap-south-1a"⟩) true "i-1" "/dev/sdf" = (false, 0) ∧
    expanderRun (fun _ => some ⟨"vol-1", "available", "ap-south-1a", 5, []⟩) true 5 = (false, 0) :=
  ⟨claim1_precondition_failure_blocks_mutation.1
      (fun _ => some ⟨"vol-1", "in-use", "ap-south-1a", 8, []⟩)
      (some ⟨"i-1", "running", "ap-south-1a"⟩) true "i-1" "/dev/sdf" _ _ rfl rfl (by decide),
   claim1_precondition_failure_blocks_mutation.2
      (fun _ => some ⟨"vol-1", "available", "ap-south-1a", 5, []⟩) true 5 _ rfl (by decide)⟩

/-- Claim C2: in every environment and on every outcome, one run of
`EBSVolumeAttacher.run` issues `attach_volume` at most once and one run of
`EBSVolumeExpander.run` issues `modify_volume` at most once. -/
theorem claim2_at_most_one_mutating_call :
    (∀ (volumeAt : Nat → Option Volume) (instanceRes : Option Instance)
        (attachOk : Bool) (iid dev : String),
        (attacherRun volumeAt instanceRes attachOk iid dev).2 ≤ 1) ∧
    (∀ (volumeAt : Nat → Option Volume) (modifyOk : Bool) (newSize : Nat),
        (expanderRun volumeAt modifyOk newSize).2 ≤ 1) := by
  constructor
  · intro volumeAt instanceRes attachOk iid dev
    unfold attacherRun
    cases hv : volumeAt 0 with
    | none => simp
    | some v =>
      cases hi : instanceRes with
      | none => simp
      | some i =>
        cases hp : verify_prereqs v i <;> cases ha : attachOk <;> simp [hp, ha]
  · intro volumeAt modifyOk newSize
    unfold expanderRun
    cases hv : volumeAt 0 with
    | none => simp
    | some v =>
      by_cases hs : newSize ≤ v.size <;> cases hm : modifyOk <;> simp [hs, hm]

/-- Counterexample to claim C3: the snapshot-retention entry point
`delete_old_snapshots`, invoked when the snapshot listing fails (an
inspection error), terminates the process via `sys.exit(1)` instead of
returning a result to its caller. -/
theorem claim3_counterexample :
    (delete_old_snapshots 0 120 none (fun _ => true)).1 = ProcResult.procExit 1 ∧
    (delete_old_snapshots 0 120 none (fun _ => true)).1 ≠ ProcResult.ret () := by
  constructor
  · rfl
  · decide

/-- Claim C3 as amended: only the single-resource reconcile entry points
(`EBSVolumeAttacher.run`, `EBSVolumeExpander.run`, which are total
`Bool`-valued functions here) return exactly one result on every path.
`delete_old_snapshots` terminates the process on every path: with exit
code 1 when the listing fails and with exit code 0 otherwise; and
`replace_unhealthy_instances` terminates the process when its member
listing fails (exit 1 via `get_asg_instances`), when terminating an
unhealthy member fails (exit 1), and when the wait for the replacement
returns without converging — the replacement timeout (exit 1). -/
theorem claim3_amended_entry_points :
    (∀ (now retentionDays : Int) (deleteOk : String → Bool),
        (delete_old_snapshots now retentionDays none deleteOk).1 = ProcResult.procExit 1) ∧
    (∀ (now retentionDays : Int) (snaps : List Snap) (deleteOk : String → Bool),
        (delete_old_snapshots now retentionDays (some snaps) deleteOk).1 = ProcResult.procExit 0) ∧
    (∀ (listings : Nat → AsgListing) (terminateOk : String → Bool),
        listings 0 = AsgListing.clientErr →
        replace_unhealthy_instances listings terminateOk = ProcResult.procExit 1) ∧
    (∀ (listings : Nat → AsgListing) (terminateOk : String → Bool) (i : AsgInst),
        listings 0 = AsgListing.found [i] → instHealthy i = false →
        terminateOk i.instanceId = false →
        replace_unhealthy_instances listings terminateOk = ProcResult.procExit 1) ∧
    (∀ (listings : Nat → AsgListing) (terminateOk : String → Bool) (i : AsgInst)
        (r : PollOutcome),
        listings 0 = AsgListing.found [i] → instHealthy i = false →
        terminateOk i.instanceId = true →
        wait_for_healthy_instance (fun j => listings (1 + j)) 600 15 = ProcResult.ret r →
        pollSucceeded r = false →
        replace_unhealthy_instances listings terminateOk = ProcResult.procExit 1) := by
  refine ⟨fun _ _ _ => rfl, fun _ _ _ _ => rfl, ?_, ?_, ?_⟩
  · intro listings terminateOk h0
    simp [replace_unhealthy_instances, h0, get_asg_instances]
  · intro listings terminateOk i h0 hh ht
    simp [replace_unhealthy_instances, h0, get_asg_instances, replaceLoop, hh, ht]
  · intro listings terminateOk i r h0 hh ht hw hr
    simp [replace_unhealthy_instances, h0, get_asg_instances, replaceLoop, hh, ht, hw, hr]

/-- Witness for the amended C3: the cleanup exits 0 on an empty listing;
the batch exits 1 on a listing error, on a termination error, and on a
replacement wait that never converges (the fleet stays unhealthy through
the whole 600-second wait, which times out after 40 attempts). -/
theorem claim3_witness :
    (delete_old_snapshots 0 120 (some []) (fun _ => true)).1 = ProcResult.procExit 0 ∧
    replace_unhealthy_instances (fun _ => AsgListing.clientErr) (fun _ => true) =
      ProcResult.procExit 1 ∧
    replace_unhealthy_instances (fun _ => AsgListing.found [⟨"i-9", "InService", "Unhealthy"⟩])
        (fun _ => false) = ProcResult.procExit 1 ∧
    replace_unhealthy_instances (fun _ => AsgListing.found [⟨"i-9", "InService", "Unhealthy"⟩])
        (fun _ => true) = ProcResult.procExit 1 :=
  ⟨claim3_amended_entry_points.2.1 0 120 [] (fun _ => true),
   claim3_amended_entry_points.2.2.1 (fun _ => AsgListing.clientErr) (fun _ => true) rfl,
   claim3_amended_entry_points.2.2.2.1 (fun _ => AsgListing.found [⟨"i-9", "InService", "Unhealthy"⟩])
      (fun _ => false) ⟨"i-9", "InService", "Unhealthy"⟩ rfl (by decide) rfl,
   claim3_amended_entry_points.2.2.2.2 (fun _ => AsgListing.found [⟨"i-9", "InService", "Unhealthy"⟩])
      (fun _ => true) ⟨"i-9", "InService", "Unhealthy"⟩ (PollOutcome.timedOut 40 600)
      rfl (by decide) rfl (by decide) rfl⟩

/-- Counterexample to claim C4: in the fleet-health wait
(`wait_for_healthy_instance`), an inspection failure during the loop (a
`ClientError` from `describe_auto_scaling_groups` on the very first
attempt) is not treated as a false predicate: it aborts the loop and the
process through `sys.exit(1)` inside `get_asg_instances`. -/
theorem claim4_counterexample :
    wait_for_healthy_instance (fun _ => AsgListing.clientErr) 600 15 = ProcResult.procExit 1 := by
  decide

/-- Claim C4 as amended: in the attachment and expansion verification
loops an inspection failure (`None` from `get_volume`) makes the
convergence predicate false for that attempt, the loop is not aborted, and
the final decision stays bounded by the deadline plus at most one poll
interval; in the fleet-health wait, by contrast, a listing failure during
the loop terminates the process with exit code 1. -/
theorem claim4_amended_inspection_failures :
    (∀ iid dev : String, attachTarget iid dev none = false) ∧
    (∀ newSize : Nat, expandTarget newSize none = false) ∧
    (∀ (getVol : Nat → Option Volume) (iid dev : String) (timeout : Nat),
        (verify_attachment getVol iid dev timeout).elapsed < timeout + 5) ∧
    (∀ (getVol : Nat → Option Volume) (newSize timeout : Nat),
        (verify_expansion getVol newSize timeout).elapsed < timeout + 10) ∧
    (∀ (listings : Nat → AsgListing) (timeout interval : Nat),
        0 < timeout → listings 0 = AsgListing.clientErr →
        wait_for_healthy_instance listings timeout interval = ProcResult.procExit 1) := by
  refine ⟨fun _ _ => rfl, fun _ => rfl, ?_, ?_, ?_⟩
  · intro getVol iid dev timeout
    show (pollP (fun k => attachTarget iid dev (getVol k)) 5 timeout
        (timeout + 1) 0 0).elapsed < timeout + 5
    exact pollP_elapsed_lt _ 5 timeout (timeout + 1) 0 0 (by omega)
  · intro getVol newSize timeout
    show (pollP (fun k => expandTarget newSize (getVol k)) 10 timeout
        (timeout + 1) 0 0).elapsed < timeout + 10
    exact pollP_elapsed_lt _ 10 timeout (timeout + 1) 0 0 (by omega)
  · intro listings timeout interval hT h0
    show pollE (fleetAttempt listings) interval timeout (timeout + 1) 0 0 = ProcResult.procExit 1
    rw [pollE, if_pos hT]
    simp [fleetAttempt, h0, get_asg_instances]

/-- Witness for the amended C4: a failed inspection evaluates the attach
target to false, and a fleet wait whose first listing errors exits the
process. -/
theorem claim4_witness :
    attachTarget "i-1" "/dev/sdf" none = false ∧
    wait_for_healthy_instance (fun _ => AsgListing.clientErr) 300 20 = ProcResult.procExit 1 :=
  ⟨claim4_amended_inspection_failures.1 "i-1" "/dev/sdf",
   claim4_amended_inspection_failures.2.2.2.2 (fun _ => AsgListing.clientErr) 300 20
      (by decide) rfl⟩

/-- Counterexample to claim C5: `verify_attachment` invoked with a
configured timeout of 12 seconds and its poll interval of 5 seconds, with
the predicate never true, blocks for 15 seconds in total — the final sleep
starts at elapsed 10, before the deadline check, and extends 3 seconds
past the configured deadline, so the total blocking time exceeds the
timeout. -/
theorem claim5_counterexample :
    verify_attachment (fun _ => none) "i-0" "/dev/sdf" 12 = PollOutcome.timedOut 3 15 ∧
    ¬ (verify_attachment (fun _ => none) "i-0" "/dev/sdf" 12).elapsed ≤ 12 := by
  constructor
  · decide
  · decide

/-- Claim C5 as amended: each loop sleeps before re-checking the deadline,
so its total blocking time is bounded by the configured timeout plus one
poll interval (strictly less than `timeout + interval`), not by the
timeout itself. -/
theorem claim5_amended_deadline_bound :
    (∀ (getVol : Nat → Option Volume) (iid dev : String) (timeout : Nat),
        (verify_attachment getVol iid dev timeout).elapsed < timeout + 5) ∧
    (∀ (getVol : Nat → Option Volume) (newSize timeout : Nat),
        (verify_expansion getVol newSize timeout).elapsed < timeout + 10) ∧
    (∀ (listings : Nat → AsgListing) (timeout interval : Nat) (r : PollOutcome),
        0 < interval →
        wait_for_healthy_instance listings timeout interval = ProcResult.ret r →
        r.elapsed < timeout + interval) := by
  refine ⟨?_, ?_, ?_⟩
  · intro getVol iid dev timeout
    show (pollP (fun k => attachTarget iid dev (getVol k)) 5 timeout
        (timeout + 1) 0 0).elapsed < timeout + 5
    exact pollP_elapsed_lt _ 5 timeout (timeout + 1) 0 0 (by omega)
  · intro getVol newSize timeout
    show (pollP (fun k => expandTarget newSize (getVol k)) 10 timeout
        (timeout + 1) 0 0).elapsed < timeout + 10
    exact pollP_elapsed_lt _ 10 timeout (timeout + 1) 0 0 (by omega)
  · intro listings timeout interval r hp hr
    exact pollE_elapsed_lt (fleetAttempt listings) interval timeout (timeout + 1) 0 0
      (by omega) r hr

/-- Witness for the amended C5: concrete instantiations of the bound for
the attachment loop and for a fleet wait that converges immediately. -/
theorem claim5_witness :
    (verify_attachment (fun _ => none) "i-1" "/dev/sdf" 120).elapsed < 120 + 5 ∧
    (PollOutcome.converged 1 0).elapsed < 600 + 15 :=
  ⟨claim5_amended_deadline_bound.1 (fun _ => none) "i-1" "/dev/sdf" 120,
   claim5_amended_deadline_bound.2.2 (fun _ => AsgListing.notFound) 600 15
      (PollOutcome.converged 1 0) (by decide) (by decide)⟩

/-- Claim C6: if the convergence target first holds at the n-th inspection
(in particular at the first one, `n = 0`) and the loop reaches that
attempt, `verify_attachment` and `verify_expansion` return success on that
very attempt: the elapsed time is exactly the n sleeps that preceded the
successful inspection, so no suspension happens after the predicate is
observed true. -/
theorem claim6_converged_without_extra_sleep :
    (∀ (getVol : Nat → Option Volume) (iid dev : String) (timeout n : Nat),
        (∀ j, j < n → attachTarget iid dev (getVol j) = false) →
        attachTarget iid dev (getVol n) = true →
        n * 5 < timeout →
        verify_attachment getVol iid dev timeout = PollOutcome.converged (n + 1) (n * 5)) ∧
    (∀ (getVol : Nat → Option Volume) (newSize timeout n : Nat),
        (∀ j, j < n → expandTarget newSize (getVol j) = false) →
        expandTarget newSize (getVol n) = true →
        n * 10 < timeout →
        verify_expansion getVol newSize timeout = PollOutcome.converged (n + 1) (n * 10)) := by
  constructor
  · intro getVol iid dev timeout n hfalse htrue hn
    exact waitUntilP_first_true _ 5 timeout n (by omega) hfalse htrue hn
  · intro getVol newSize timeout n hfalse htrue hn
    exact waitUntilP_first_true _ 10 timeout n (by omega) hfalse htrue hn

/-- Witness for C6: a volume already attached at the first inspection makes
`verify_attachment` converge with one attempt and zero elapsed time. -/
theorem claim6_witness :
    verify_attachment
        (fun _ => some ⟨"vol-1", "in-use", "ap-south-1a", 8, [⟨"i-1", "/dev/sdf", "attached"⟩]⟩)
        "i-1" "/dev/sdf" 120 = PollOutcome.converged 1 0 :=
  claim6_converged_without_extra_sleep.1
    (fun _ => some ⟨"vol-1", "in-use", "ap-south-1a", 8, [⟨"i-1", "/dev/sdf", "attached"⟩]⟩)
    "i-1" "/dev/sdf" 120 0 (fun j hj => absurd hj (Nat.not_lt_zero j)) (by decide) (by decide)

/-- Claim C7: when the convergence target never becomes true,
`verify_attachment` (interval 5) and `verify_expansion` (interval 10)
return the timeout result, do so only after elapsed time at least the
configured timeout, and perform exactly the ceiling of timeout over the
poll interval many inspection attempts. -/
theorem claim7_timeout_attempt_count :
    (∀ (getVol : Nat → Option Volume) (iid dev : String) (timeout : Nat),
        (∀ k, attachTarget iid dev (getVol k) = false) →
        verify_attachment getVol iid dev timeout =
          PollOutcome.timedOut (ceilDiv timeout 5) (ceilDiv timeout 5 * 5) ∧
        timeout ≤ ceilDiv timeout 5 * 5) ∧
    (∀ (getVol : Nat → Option Volume) (newSize timeout : Nat),
        (∀ k, expandTarget newSize (getVol k) = false) →
        verify_expansion getVol newSize timeout =
          PollOutcome.timedOut (ceilDiv timeout 10) (ceilDiv timeout 10 * 10) ∧
        timeout ≤ ceilDiv timeout 10 * 10) := by
  constructor
  · intro getVol iid dev timeout hfalse
    exact ⟨waitUntilP_never_true _ 5 timeout hfalse (by decide), le_mul_ceilDiv (by decide)⟩
  · intro getVol newSize timeout hfalse
    exact ⟨waitUntilP_never_true _ 10 timeout hfalse (by decide), le_mul_ceilDiv (by decide)⟩

/-- Witness for C7: with every inspection failing, `verify_attachment`
with the default 120-second timeout performs the ceiling of 120 over 5
attempts (24) and times out at elapsed 120, not before the deadline. -/
theorem claim7_witness :
    verify_attachment (fun _ => none) "i-1" "/dev/sdf" 120 =
        PollOutcome.timedOut (ceilDiv 120 5) (ceilDiv 120 5 * 5) ∧
    120 ≤ ceilDiv 120 5 * 5 :=
  claim7_timeout_attempt_count.1 (fun _ => none) "i-1" "/dev/sdf" 120 (fun _ => rfl)

/-- Claim C8: with retention 120 days, the cleanup's deletion list is
exactly the ids of the listed snapshots whose start time is strictly
before `now - 120` and whose delete call succeeds — so it contains only
eligible snapshots — and in the concrete scenario a snapshot aged 121 days
is deleted while snapshots aged exactly 120 or 90 days are not. -/
theorem claim8_retention_eligibility :
    ∀ (now : Int) (snaps : List Snap) (deleteOk : String → Bool),
    deletions (now - 120) deleteOk snaps =
      (snaps.filter fun s =>
        decide (s.startTime < now - 120) && deleteOk s.snapshotId).map Snap.snapshotId ∧
    (delete_old_snapshots now 120
        (some [⟨"snap-old", now - 121⟩, ⟨"snap-edge", now - 120⟩, ⟨"snap-new", now - 90⟩])
        (fun _ => true)).2 = ["snap-old"] := by
  intro now snaps deleteOk
  constructor
  · induction snaps with
    | nil => rfl
    | cons s rest ih =>
      by_cases h1 : s.startTime < now - 120
      · cases h2 : deleteOk s.snapshotId
        · simp [deletions, List.filter_cons, h1, h2, ih]
        · simp [deletions, List.filter_cons, h1, h2, ih]
      · simp [deletions, List.filter_cons, h1, ih]
  · have h1 : (now - 121 : Int) < now - 120 := by omega
    have h2 : ¬ ((now - 120 : Int) < now - 120) := by omega
    have h3 : ¬ ((now - 90 : Int) < now - 120) := by omega
    simp [delete_old_snapshots, deletions, h1, h2, h3]

/-- Claim C9: a failing `delete_snapshot` call is isolated: the loop's
output on `s :: rest` equals its output on `rest` when deleting `s` fails
(the error is caught and the remaining snapshots are processed in order),
and an id whose delete call fails never appears in the deleted-snapshots
list. -/
theorem claim9_delete_failure_isolated :
    ∀ (cutoff : Int) (deleteOk : String → Bool) (s : Snap) (rest : List Snap)
      (sid : String) (snaps : List Snap),
    (deleteOk s.snapshotId = false →
      deletions cutoff deleteOk (s :: rest) = deletions cutoff deleteOk rest) ∧
    (deleteOk sid = false → sid ∉ deletions cutoff deleteOk snaps) := by
  intro cutoff deleteOk s rest sid snaps
  constructor
  · intro hd
    by_cases h1 : s.startTime < cutoff
    · simp [deletions, h1, hd]
    · simp [deletions, h1]
  · intro hd
    induction snaps with
    | nil => simp [deletions]
    | cons s0 rest0 ih =>
      by_cases h1 : s0.startTime < cutoff
      · cases h2 : deleteOk s0.snapshotId with
        | false => simpa [deletions, h1, h2] using ih
        | true =>
          have hne : sid ≠ s0.snapshotId := by
            intro he
            rw [he, h2] at hd
            cases hd
          simp only [deletions, if_pos h1, h2, if_true, List.mem_cons]
          push_neg
          exact ⟨hne, ih⟩
      · simpa [deletions, h1] using ih

/-- Witness for C9: deleting `snap-1` fails, `snap-2` is still processed
and deleted, and `snap-1` is absent from the result list. -/
theorem claim9_witness :
    deletions 0 (fun i => i != "snap-1") [⟨"snap-1", -10⟩, ⟨"snap-2", -10⟩] =
        deletions 0 (fun i => i != "snap-1") [⟨"snap-2", -10⟩] ∧
    "snap-1" ∉ deletions 0 (fun i => i != "snap-1") [⟨"snap-1", -10⟩, ⟨"snap-2", -10⟩] :=
  ⟨(claim9_delete_failure_isolated 0 (fun i => i != "snap-1") ⟨"snap-1", -10⟩
      [⟨"snap-2", -10⟩] "snap-1" []).1 (by decide),
   (claim9_delete_failure_isolated 0 (fun i => i != "snap-1") ⟨"snap-1", -10⟩
      [⟨"snap-2", -10⟩] "snap-1" [⟨"snap-1", -10⟩, ⟨"snap-2", -10⟩]).2 (by decide)⟩

/-- Claim C10: when the member listing of the fleet-health wait yields the
empty list — in particular when the ASG is not found, in which case
`get_asg_instances` returns `[]` — the all-members-healthy predicate holds
vacuously and `wait_for_healthy_instance` returns success on that first
attempt with zero elapsed time: the absent ASG is reported healthy. -/
theorem claim10_empty_fleet_reported_healthy :
    ∀ (listings : Nat → AsgListing) (timeout interval : Nat),
      0 < timeout →
      get_asg_instances (listings 0) = ProcResult.ret [] →
      wait_for_healthy_instance listings timeout interval =
        ProcResult.ret (PollOutcome.converged 1 0) := by
  intro listings timeout interval hT h0
  have ha : fleetAttempt listings 0 = ProcResult.ret true := by
    simp [fleetAttempt, h0]
  exact waitUntilE_first_true _ interval timeout hT ha

/-- Witness for C10: an ASG that is never found converges immediately with
the default 600-second timeout and 15-second interval. -/
theorem claim10_witness :
    wait_for_healthy_instance (fun _ => AsgListing.notFound) 600 15 =
      ProcResult.ret (PollOutcome.converged 1 0) :=
  claim10_empty_fleet_reported_healthy (fun _ => AsgListing.notFound) 600 15 (by decide) rfl
